import Mathlib

/-!
Verification of the libsimba client library specification against a shallow
embedding of the source under `src/libsimba`.  Each section embeds the data
model and control flow of one source component; theorems at the end settle
the spec claims.
-/

namespace LibSimba

/-! ## Retrying transport (src/libsimba/utils.py, class RetryTransport) -/

/-- Embeds `RetryTransport.RETRYABLE_METHODS` (utils.py line 112). -/
def RETRYABLE_METHODS : List String :=
  ["HEAD", "GET", "PUT", "DELETE", "OPTIONS", "TRACE"]

/-- Embeds `RetryTransport.RETRYABLE_STATUS_CODES` (utils.py line 113). -/
def RETRYABLE_STATUS_CODES : List Nat := [413, 429, 500, 502, 503, 504]

/-- Configuration attrs of a `RetryTransport` instance as assigned in
`RetryTransport.__init__` (utils.py lines 117-151).  Floats are modelled
as rationals. -/
structure RetryTransportCfg where
  max_attempts : Nat
  max_backoff_wait : ℚ
  backoff_factor : ℚ
  jitter_ratio : ℚ
  respect_retry_after_header : Bool
  retry_status_codes : List Nat
  deriving Repr

/-- Embeds the jitter-ratio validation in `RetryTransport.__init__`
(utils.py lines 131-134): the constructor raises `ValueError` exactly when
this returns `true`. -/
def init_rejects_jitter (jitter_ratio : ℚ) : Bool :=
  decide (jitter_ratio < 0) || decide (jitter_ratio > 1 / 2)

/-- A `RetryTransport` with the default keyword arguments of
`RetryTransport.__init__` (max_attempts 3, max_backoff_wait 10,
backoff_factor 0.5, jitter_ratio 0.1, respect_retry_after_header True,
default status-code set). -/
def default_transport_cfg : RetryTransportCfg where
  max_attempts := 3
  max_backoff_wait := 10
  backoff_factor := 1 / 2
  jitter_ratio := 1 / 10
  respect_retry_after_header := true
  retry_status_codes := RETRYABLE_STATUS_CODES

/-- Model of the `Retry-After` header as seen by
`RetryTransport._calculate_sleep` (utils.py lines 153-174), after the
environment-dependent parsing steps that cannot live in the embedding:
`absent` is a missing or empty header; `digits n` is a header for which
`str.isdigit` holds, with value `n`; `httpDate diff` is a header that
`parsedate_to_datetime` accepts, where `diff` is the computed number of
seconds between the parsed date and the current time; `malformed` is a
non-digit header rejected by `parsedate_to_datetime` with `ValueError`. -/
inductive RetryAfterValue where
  | absent
  | digits (n : Nat)
  | httpDate (diff : ℚ)
  | malformed
  deriving Repr, DecidableEq

/-- Embeds `RetryTransport._calculate_sleep` (utils.py lines 153-174).
`attempts_made` is the loop counter passed by `handle_request`; `sign` is
the value drawn by `random.choice([1, -1])`. -/
def calculate_sleep (cfg : RetryTransportCfg) (attempts_made : Nat)
    (retry_after : RetryAfterValue) (sign : ℚ) : ℚ :=
  let backoff := cfg.backoff_factor * (2 : ℚ) ^ ((attempts_made : ℤ) - 1)
  let jitter := backoff * cfg.jitter_ratio * sign
  let total_backoff := backoff + jitter
  let fallback := min total_backoff cfg.max_backoff_wait
  if cfg.respect_retry_after_header then
    match retry_after with
    | .digits n => (n : ℚ)
    | .httpDate diff =>
        if 0 < diff then min diff cfg.max_backoff_wait else fallback
    | _ => fallback
  else fallback

/-- An outbound HTTP request as far as the retry loop can observe it.  The
method is carried because `httpx.Request` carries it; the embedding keeps
it so that theorems can quantify over it. -/
structure HttpRequest where
  method : String
  deriving Repr, DecidableEq

/-- Embeds the `while` loop of `RetryTransport.handle_request` (utils.py
lines 196-217).  `seq i` is the status code returned by the `(i+1)`-th call
to `wrapped_transport.handle_request`; `response` is the status code of the
response currently held; the loop body re-sends and decrements
`remaining_attempts`.  Exactly as in the source, the loop condition tests
only `remaining_attempts` and the status code - the request method is
never consulted.  Returns the final status code together with
`attempts_made`, the number of retries performed. -/
def retry_loop (cfg : RetryTransportCfg) (seq : Nat → Nat) (response : Nat)
    (attempts_made remaining_attempts : Nat) : Nat × Nat :=
  match remaining_attempts with
  | 0 => (response, attempts_made)
  | r + 1 =>
    if response ∈ cfg.retry_status_codes then
      retry_loop cfg seq (seq (attempts_made + 1)) (attempts_made + 1) r
    else
      (response, attempts_made)

/-- Embeds `RetryTransport.handle_request` (utils.py lines 176-217): the
first call to the wrapped transport yields `seq 0`, then the retry loop
runs with `remaining_attempts = max_attempts` and `attempts_made = 0`.
The request argument is forwarded to the wrapped transport but, as in the
source, its method plays no role in the retry decision. -/
def handle_request (cfg : RetryTransportCfg) (request : HttpRequest)
    (seq : Nat → Nat) : Nat × Nat :=
  retry_loop cfg seq (seq 0) 0 cfg.max_attempts

/-! ## Auth tokens and the token cache
(src/libsimba/auth/client_credentials.py, class ClientCredentials) -/

/-- Embeds `schemas.AuthToken` (schemas.py lines 45-54).  The `expires`
datetime is modelled as a UTC epoch timestamp in seconds. -/
structure AuthToken where
  token : String
  type : String
  expires : Int
  deriving Repr, DecidableEq

/-- Association-list read, modelling Python `dict.get`. -/
def dget (m : List (String × α)) (k : String) : Option α :=
  List.lookup k m

/-- Association-list write, modelling Python `dict[k] = v` (and writing a
token file named after `k`): any previous binding of `k` is replaced. -/
def dset (m : List (String × α)) (k : String) (v : α) : List (String × α) :=
  (k, v) :: m.filter (fun p => p.1 ≠ k)

/-- Association-list delete, modelling `dict.pop(k, None)` (and
`os.remove` of the file named after `k`). -/
def dremove (m : List (String × α)) (k : String) : List (String × α) :=
  m.filter (fun p => p.1 ≠ k)

/-- State owned by `ClientCredentials`: the in-memory `access_tokens` map
and the token files on disk, as a map from client id to the `AuthToken`
stored in `<client_id>_token.json`. -/
structure TokenCacheState where
  access_tokens : List (String × AuthToken)
  token_files : List (String × AuthToken)
  deriving Repr, DecidableEq

/-- Embeds `ClientCredentials.token_expired` (client_credentials.py lines
105-125): a token is expired exactly when `now + offset` has reached
`expires` (the source compares `datetime.now(tz=utc) + timedelta(offset)
>= token.expires`). -/
def token_expired (now : Int) (token : AuthToken) (offset : Int := 60) : Bool :=
  decide (now + offset ≥ token.expires)

/-- Embeds the file-cache part of `ClientCredentials.get_cached_token`
(client_credentials.py lines 178-196): skipped when
`settings().WRITE_TOKEN_TO_FILE` is off; an expired file token is deleted
with `os.remove` and `None` is returned.  Returns the looked-up token and
the resulting state. -/
def get_cached_token_file (write_to_file : Bool) (now : Int)
    (st : TokenCacheState) (client_id : String) :
    Option AuthToken × TokenCacheState :=
  if write_to_file then
    match dget st.token_files client_id with
    | some token =>
      if token_expired now token then
        (none, { st with token_files := dremove st.token_files client_id })
      else
        (some token, st)
    | none => (none, st)
  else
    (none, st)

/-- Embeds `ClientCredentials.get_cached_token` (client_credentials.py
lines 158-196): first the in-memory map is consulted, an expired entry is
popped, then control falls through to the token-file cache. -/
def get_cached_token (write_to_file : Bool) (now : Int)
    (st : TokenCacheState) (client_id : String) :
    Option AuthToken × TokenCacheState :=
  match dget st.access_tokens client_id with
  | some token =>
    if token_expired now token then
      get_cached_token_file write_to_file now
        { st with access_tokens := dremove st.access_tokens client_id }
        client_id
    else
      (some token, st)
  | none => get_cached_token_file write_to_file now st client_id

/-- Embeds `ClientCredentials.cache_token` (client_credentials.py lines
127-156): the token is serialised to `<client_id>_token.json` when
`WRITE_TOKEN_TO_FILE` is set, and always written to the in-memory map. -/
def cache_token (write_to_file : Bool) (st : TokenCacheState)
    (client_id : String) (token : AuthToken) : TokenCacheState :=
  let st1 :=
    if write_to_file then
      { st with token_files := dset st.token_files client_id token }
    else
      st
  { st1 with access_tokens := dset st1.access_tokens client_id token }

/-- Embeds `schemas.AuthProviderName` (schemas.py lines 38-42). -/
inductive AuthProviderName where
  | BLK
  | KC
  | NOOP
  | PLAT
  deriving Repr, DecidableEq

/-- The provider registry built in `ClientCredentials.__init__`
(client_credentials.py lines 41-50): Blocks, Keycloak and Platform
providers. -/
def registry_providers : List AuthProviderName :=
  [.BLK, .KC, .PLAT]

/-- Embeds `schemas.Login` restricted to the fields read by
`ClientCredentials.login_sync` / `login`. -/
structure LoginInfo where
  client_id : String
  provider : Option AuthProviderName
  deriving Repr, DecidableEq

/-- Result of one `login_sync` / `login` invocation: the headers mapping
after the call, the cache state after the call, the number of network
token exchanges performed by a concrete provider, and the returned value
(`None` on the short-circuit path). -/
structure LoginOutcome where
  headers : List (String × String)
  state : TokenCacheState
  network_calls : Nat
  returned : Option AuthToken
  deriving Repr, DecidableEq

/-- Embeds `ClientCredentials.login_sync` (client_credentials.py lines
65-83); `ClientCredentials.login` (lines 85-103) is the awaitable twin
with identical logic, so this definition models both.  The guard is the
Python truthiness test `if not headers.get("Authorization")`, so an
absent header and an empty-string header both proceed to `do_login`.
`settings_provider` is `settings().AUTH_PROVIDER`; `provider_token` is
the token that the dispatched concrete provider would obtain from its
network exchange (the exchange itself is outside the embedding, its
invocation is counted in `network_calls`).  An unknown provider raises
`ValueError` in `do_login` (lines 52-60), modelled as `Except.error`. -/
def login_sync (write_to_file : Bool) (now : Int)
    (settings_provider : AuthProviderName) (provider_token : AuthToken)
    (st : TokenCacheState) (login : LoginInfo)
    (headers : List (String × String)) : Except String LoginOutcome :=
  let auth_value := (dget headers "Authorization").getD ""
  if auth_value ≠ "" then
    .ok ⟨headers, st, 0, none⟩
  else
    let provider_name := login.provider.getD settings_provider
    if provider_name ∈ registry_providers then
      let cached := get_cached_token write_to_file now st login.client_id
      let token_calls : AuthToken × Nat :=
        match cached.1 with
        | some t => (t, 0)
        | none => (provider_token, 1)
      let token := token_calls.1
      let headers1 :=
        dset headers "Authorization" (token.type ++ " " ++ token.token)
      let st2 := cache_token write_to_file cached.2 login.client_id token
      .ok ⟨headers1, st2, token_calls.2, some token⟩
    else
      .error "No provider found for provider type"

/-! ## Pagination (src/libsimba/simba_request.py, class Pager and the
retrieve family of SimbaRequest) -/

/-- A decoded JSON page as observed by `Pager` (simba_request.py lines
51-72): the `results` and `items` lists (a missing key and an empty list
are both falsy under `page.get`, so they are collapsed to the empty
list), the cursor-style `next` URL, and the page/size-style counters. -/
structure Page (α : Type) where
  results : List α
  items : List α
  next : Option String
  page : Option Nat
  pages : Option Nat
  size : Option Nat
  deriving Repr

/-- Embeds `Pager.list` (simba_request.py lines 53-58). -/
def pager_list (page : Page α) : List α :=
  if !page.results.isEmpty then page.results
  else if !page.items.isEmpty then page.items
  else []

/-- Query parameters carried alongside a page request; `none` models the
Python `params = None` produced by the cursor branch of `Pager.next`. -/
abbrev PageParams := List (String × String)

/-- Embeds `Pager.next` (simba_request.py lines 60-72).  In the page/size
branch the source mutates the existing `params` dict; the claims settled
here only exercise the cursor branch, where `params` is present, so the
`getD []` on an absent dict is never reached under the hypotheses of the
theorems below. -/
def pager_next (url : String) (page : Page α) (params : Option PageParams) :
    Option String × Option PageParams :=
  if !page.results.isEmpty then
    (page.next, none)
  else if !page.items.isEmpty then
    let curr := page.page.getD 1
    let total := page.pages.getD 1
    if curr < total then
      let p1 := dset (params.getD []) "page" (toString (curr + 1))
      let p2 := dset p1 "size" (toString (page.size.getD 50))
      (some url, some p2)
    else
      (none, none)
  else
    (none, none)

/-- Embeds the `while` loop of `SimbaRequest.retrieve_iter_sync`
(simba_request.py lines 456-472).  `fetch url params` models
`client.get(url, params=params).json()`; the produced list is the
sequence of values the generator yields: `some results` for each page
with a non-empty item list, and a final `none` for the sentinel yielded
before stopping on an empty page.  `fuel` bounds the number of loop
iterations so the definition is total; every claim is settled with
sufficient fuel. -/
def retrieve_iter_go (fetch : String → Option PageParams → Page α) :
    Nat → String → Option PageParams → List (Option (List α))
  | 0, _, _ => []
  | fuel + 1, url, params =>
    let page := fetch url params
    let results := pager_list page
    if results.isEmpty then
      [none]
    else
      let np := pager_next url page params
      some results ::
        (match np.1 with
         | none => []
         | some u => retrieve_iter_go fetch fuel u np.2)

/-- Embeds `SimbaRequest.retrieve_iter_sync` (simba_request.py lines
438-472): the loop starts from the request URL with the request query
parameters. -/
def retrieve_iter_sync (fetch : String → Option PageParams → Page α)
    (url : String) (query_params : PageParams) (fuel : Nat) :
    List (Option (List α)) :=
  retrieve_iter_go fetch fuel url (some query_params)

/-- Embeds `SimbaRequest.retrieve_sync` (simba_request.py lines 474-497):
a single GET of the request URL (issued without a separate params dict),
returning `Pager.list` of the first page only. -/
def retrieve_sync (fetch : String → Option PageParams → Page α)
    (url : String) : List α :=
  pager_list (fetch url none)

/-! ## Long-poll helpers (src/libsimba/simba_sync.py) -/

/-- Outcome of one long-poll helper run: `success state sleeps` is a
normal return carrying the final state and the number of 2-second sleeps
performed; `failed` is the `ValueError` raised on a FAILED transaction;
`timeout` is the `ValueError` raised after waiting too long. -/
inductive PollResult where
  | success (state : String) (sleeps : Nat)
  | failed (state : String)
  | timeout
  deriving Repr, DecidableEq

/-- Embeds `SimbaSync.wait_for_deployment` (simba_sync.py lines
1386-1432).  `poll i` is the `state` field of the resource returned by the
`(i+1)`-th GET; `sleeps` counts the `time.sleep(2)` calls performed so
far (zero at the entry call).  The source checks only for COMPLETED; any
other state, FAILED included, falls into the timeout check and another
recursive poll. -/
def wait_for_deployment (poll : Nat → String)
    (sleeps total_time max_time : Nat) : PollResult :=
  let state := poll sleeps
  if state = "COMPLETED" then
    .success state sleeps
  else if total_time > max_time then
    .timeout
  else
    wait_for_deployment poll (sleeps + 1) (total_time + 2) max_time
termination_by max_time + 2 - total_time
decreasing_by omega

/-- Embeds `SimbaSync.wait_for_org_transaction` (simba_sync.py lines
2641-2690): identical polling loop, except that a FAILED state raises
`ValueError` before the COMPLETED check. -/
def wait_for_org_transaction (poll : Nat → String)
    (sleeps total_time max_time : Nat) : PollResult :=
  let state := poll sleeps
  if state = "FAILED" then
    .failed state
  else if state = "COMPLETED" then
    .success state sleeps
  else if total_time > max_time then
    .timeout
  else
    wait_for_org_transaction poll (sleeps + 1) (total_time + 2) max_time
termination_by max_time + 2 - total_time
decreasing_by omega

/-! ## Response decoding (src/libsimba/simba_request.py,
SimbaRequest._json_response_or_raise, and src/libsimba/exceptions.py) -/

/-- A JSON value, the decoding target of `response.json()`. -/
inductive JsonValue where
  | null
  | bool (b : Bool)
  | num (n : Int)
  | str (s : String)
  | arr (xs : List JsonValue)
  | obj (kvs : List (String × JsonValue))

/-- The error taxonomy of exceptions.py as raised by
`SimbaRequest._json_response_or_raise` (simba_request.py lines 634-657):
`invalidURL` is `SimbaInvalidURLException`, `request` is
`SimbaRequestException`, `generic` is the catch-all `LibSimbaException`.
Each carries the message passed to the constructor;
`LibSimbaException.__init__` (exceptions.py lines 54-65) then appends a
fixed title/expanded-message suffix that mentions no response data, so
message-content statements are unaffected by the suffix. -/
inductive SimbaError where
  | invalidURL (message : String)
  | request (message : String)
  | generic (message : String)
  deriving Repr, DecidableEq

/-- An `httpx.Response` as observed by `_json_response_or_raise`:
`status_code`, the raw body `text`, and `json_loads`, the outcome of the
Python `json` decoder on the body.  A decode failure carries
`str(JSONDecodeError)`, which is a positional message such as
`Expecting value: line 1 column 1 (char 0)` and never embeds the
document text. -/
structure HttpResponse where
  status_code : Nat
  text : String
  json_loads : Except String JsonValue

/-- Message of the `httpx.HTTPStatusError` raised by
`response.raise_for_status` for a status at or above 400: it names the
status code and the URL, not the body. -/
def status_error_text (status_code : Nat) : String :=
  "HTTPStatusError for status code " ++ toString status_code

/-- Embeds `SimbaRequest._json_response_or_raise` (simba_request.py lines
634-657).  An empty body is replaced by the literal object text, which
decodes to the empty JSON object.  A decode failure is a `ValueError`
and is wrapped as `SimbaInvalidURLException(str(e))` - built from the
decoder message alone.  `raise_for_status` raises `HTTPStatusError`
for 4xx/5xx, which is not an `httpx.RequestError` subclass and so falls
to the catch-all branch, raising `LibSimbaException` with the message
built from the exception text and `self._response.text`, the raw body.
Inside this function no `httpx.RequestError` can be raised, so the
`SimbaRequestException` branch (line 653-654) is dead here; its message
shape, for reference, is also exception text followed by the raw body. -/
def json_response_or_raise (r : HttpResponse) : Except SimbaError JsonValue :=
  let parsed : Except String JsonValue :=
    if r.text = "" then .ok (JsonValue.obj []) else r.json_loads
  match parsed with
  | .error e => .error (.invalidURL e)
  | .ok j =>
    if 400 ≤ r.status_code then
      .error (.generic (status_error_text r.status_code ++ " :: " ++ r.text))
    else
      .ok j

/-- Substring test used to state body-inclusion properties of error
messages. -/
def contains_substr (s sub : String) : Bool :=
  decide (sub.toList <:+: s.toList)

/-! ## Parameter validator (src/libsimba/param_checking.py,
class ParamChecking) -/

/-- A Python value as handled by `ParamChecking.validate`. -/
inductive PyValue where
  | vnone
  | vbool (b : Bool)
  | vint (n : Int)
  | vstr (s : String)
  | vlist (xs : List PyValue)
  | vdict (kvs : List (String × PyValue))

/-- Python truthiness of a `PyValue`, as tested by
`if not inputs.get(k)` (param_checking.py line 105). -/
def truthy : PyValue → Bool
  | .vnone => false
  | .vbool b => b
  | .vint n => decide (n ≠ 0)
  | .vstr s => decide (s ≠ "")
  | .vlist xs => !xs.isEmpty
  | .vdict kvs => !kvs.isEmpty

/-- Embeds `ParamChecking.get_dimension_lengths` (param_checking.py lines
31-48): splits a solidity array suffix on the opening bracket, drops
empty fragments, and prepends each length (0 for a dynamically sized
dimension).  The `int` conversion of a well-formed fragment is a decimal
parse; an unparsable fragment is mapped to 0 where Python would raise,
which no claim exercises. -/
def get_dimension_lengths (dims : String) : List Nat :=
  let dimensions := (dims.splitOn "[").filter (fun d => d ≠ "")
  dimensions.foldl
    (fun ret dim =>
      (if dim.length = 1 then 0 else (dim.dropRight 1).toNat?.getD 0) :: ret)
    []

/-- Embeds `ParamChecking.get_type_info` (param_checking.py lines 50-69):
strips a `struct ` prefix, then splits an array type at the first opening
bracket into element type and dimension list. -/
def get_type_info (data_type : String) : String × Bool × List Nat :=
  let struct := data_type.startsWith "struct "
  let dt := if struct then data_type.drop 7 else data_type
  if dt.endsWith "]" then
    let name := String.mk (dt.toList.takeWhile (fun c => c ≠ '['))
    let dims := String.mk (dt.toList.dropWhile (fun c => c ≠ '['))
    (name, struct, get_dimension_lengths dims)
  else
    (dt, struct, [])

/-- Python `int(value)` on a string: an optional sign followed by decimal
digits; anything else (a hex string included) raises `ValueError`,
modelled as `none`. -/
def py_int_of_string (s : String) : Option Int :=
  if s.startsWith "-" then
    ((s.drop 1).toNat?).map (fun n => -(n : Int))
  else
    (s.toNat?).map (fun n => (n : Int))

/-- Embeds `ParamChecking.expect_scalar` (param_checking.py lines
176-230).  Python `bool` is a subclass of `int`, so `vbool` passes the
`isinstance(value, (int, str))` tests with `int(True) = 1` and
`int(False) = 0`. -/
def expect_scalar (key : String) (data_type : String) (value : PyValue) :
    Except String Unit :=
  match value with
  | .vnone => .error ("Values cannot be null for key: " ++ key)
  | _ =>
    if data_type.startsWith "bool" then
      match value with
      | .vbool _ => .ok ()
      | _ => .error "Expected boolean"
    else if data_type.startsWith "uint" then
      match value with
      | .vint n => if n < 0 then .error ("Expected non negative int for key: " ++ key) else .ok ()
      | .vbool _ => .ok ()
      | .vstr s =>
        match py_int_of_string s with
        | some n => if n < 0 then .error ("Expected non negative int for key: " ++ key) else .ok ()
        | none => .error ("invalid literal for int: " ++ s)
      | _ => .error ("Expected int or string for key: " ++ key)
    else if data_type.startsWith "int" then
      match value with
      | .vint _ => .ok ()
      | .vbool _ => .ok ()
      | .vstr s =>
        if s.startsWith "0x" then .ok ()
        else .error ("Expected string to be hex encoded for key: " ++ key)
      | _ => .error ("Expected int or string for key: " ++ key)
    else if data_type = "address" then
      match value with
      | .vstr s =>
        if s.startsWith "0x" then .ok ()
        else .error ("Expected string to be hex encoded for key: " ++ key)
      | _ => .error ("Expected string for key: " ++ key)
    else if data_type.startsWith "byte" || data_type.startsWith "sbyte" then
      match value with
      | .vstr s =>
        if s.startsWith "0x" then .ok ()
        else .error ("Expected string to be hex encoded for key: " ++ key)
      | _ => .error ("Expected string for key: " ++ key)
    else
      .ok ()

/-- Contract metadata as read by the struct branch of
`ParamChecking.validate_param`: a map from struct type name to its
component parameter list, each parameter a name/type pair (the source
reads dict entries `name` and `type` through `params_as_dict`). -/
structure ContractMetadata where
  types : List (String × List (String × String))

/-- Lookup of a `PyValue` in an input mapping, modelling
`inputs.get(k)`. -/
def pv_get (m : List (String × PyValue)) (k : String) : Option PyValue :=
  List.lookup k m

mutual

/-- Embeds `ParamChecking.validate` (param_checking.py lines 87-117): for
each declared parameter, `_bundleHash` is skipped, the presence check is
the truthiness test `if not inputs.get(k)` which also rejects falsy
supplied values, then the value is validated against its type.  `fuel`
decreases on every call so the mutual recursion is total; `none` models
running out of fuel and never occurs on real inputs validated with
sufficient fuel.  `some (Except.error m)` models a raised exception. -/
def validate (fuel : Nat) (inputs : List (String × PyValue))
    (param_list : List (String × String)) (md : ContractMetadata) :
    Option (Except String Unit) :=
  match fuel with
  | 0 => none
  | fuel + 1 =>
    match param_list with
    | [] => some (.ok ())
    | (k, ty) :: rest =>
      if k = "_bundleHash" then
        validate fuel inputs rest md
      else
        match pv_get inputs k with
        | none => some (.error "Unexpected keys")
        | some v =>
          if truthy v = false then
            some (.error "Unexpected keys")
          else
            let ti := get_type_info ty
            match validate_param fuel k v ti.1 ti.2.1 ti.2.2 md with
            | none => none
            | some (.error e) => some (.error e)
            | some (.ok ()) => validate fuel inputs rest md

/-- Embeds `ParamChecking.validate_param` (param_checking.py lines
119-171): arrays are checked dimension by dimension, structs recurse into
`validate` with the component metadata, scalars go to `expect_scalar`.
A non-list value for an array type and a fixed dimension mismatch raise
`ValueError`; a non-mapping value for a struct type raises
`AttributeError` in the source (from `inputs.get` on a non-dict), and a
struct type with no component metadata raises `TypeError` (from
iterating `None`); both are modelled as errors. -/
def validate_param (fuel : Nat) (key : String) (input : PyValue)
    (data_type : String) (struct : Bool) (dimensions : List Nat)
    (md : ContractMetadata) : Option (Except String Unit) :=
  match fuel with
  | 0 => none
  | fuel + 1 =>
    match dimensions with
    | len :: rest_dims =>
      match input with
      | .vlist xs =>
        if len > 0 && xs.length ≠ len then
          some (.error ("Unexpected length. Expected " ++ toString len ++
            " but got " ++ toString xs.length))
        else
          validate_param_each fuel key xs data_type struct rest_dims md
      | _ => some (.error ("Expected a list for key: " ++ key))
    | [] =>
      if struct then
        match List.lookup data_type md.types with
        | some comps =>
          match input with
          | .vdict kvs => validate fuel kvs comps md
          | _ => some (.error "AttributeError: value is not a mapping")
        | none => some (.error "TypeError: missing component metadata")
      else
        some (expect_scalar key data_type input)

/-- The element loop `for v in input` of `ParamChecking.validate_param`
(param_checking.py lines 158-166). -/
def validate_param_each (fuel : Nat) (key : String) (xs : List PyValue)
    (data_type : String) (struct : Bool) (dimensions : List Nat)
    (md : ContractMetadata) : Option (Except String Unit) :=
  match fuel with
  | 0 => none
  | fuel + 1 =>
    match xs with
    | [] => some (.ok ())
    | v :: rest =>
      match validate_param fuel key v data_type struct dimensions md with
      | none => none
      | some (.error e) => some (.error e)
      | some (.ok ()) => validate_param_each fuel key rest data_type struct dimensions md

end

/-! ## Helper lemmas -/

theorem retry_loop_count_le (cfg : RetryTransportCfg) (seq : Nat → Nat) :
    ∀ (r a resp : Nat), (retry_loop cfg seq resp a r).2 ≤ a + r := by
  intro r
  induction r with
  | zero => intro a resp; simp [retry_loop]
  | succ n ih =>
    intro a resp
    simp only [retry_loop]
    split
    · have h := ih (a + 1) (seq (a + 1))
      omega
    · simp

theorem retry_loop_all_retryable (cfg : RetryTransportCfg) (seq : Nat → Nat) :
    ∀ (r a : Nat),
      (∀ i, a ≤ i → i ≤ a + r → seq i ∈ cfg.retry_status_codes) →
      retry_loop cfg seq (seq a) a r = (seq (a + r), a + r) := by
  intro r
  induction r with
  | zero => intro a _; simp [retry_loop]
  | succ n ih =>
    intro a h
    have ha : seq a ∈ cfg.retry_status_codes := h a (le_refl a) (by omega)
    simp only [retry_loop, if_pos ha]
    have hrec := ih (a + 1) (fun i h1 h2 => h i (by omega) (by omega))
    have hx : a + 1 + n = a + (n + 1) := by omega
    rw [hx] at hrec
    exact hrec

theorem retry_loop_first_success (cfg : RetryTransportCfg) (seq : Nat → Nat) :
    ∀ (r a k : Nat), a ≤ k → k ≤ a + r →
      (∀ i, a ≤ i → i < k → seq i ∈ cfg.retry_status_codes) →
      seq k ∉ cfg.retry_status_codes →
      retry_loop cfg seq (seq a) a r = (seq k, k) := by
  intro r
  induction r with
  | zero =>
    intro a k h1 h2 _ _
    have : k = a := by omega
    subst this
    simp [retry_loop]
  | succ n ih =>
    intro a k h1 h2 hall hk
    by_cases hak : a = k
    · subst hak
      simp only [retry_loop, if_neg hk]
    · have ha : seq a ∈ cfg.retry_status_codes := hall a (le_refl a) (by omega)
      simp only [retry_loop, if_pos ha]
      exact ih (a + 1) k (by omega) (by omega)
        (fun i hi1 hi2 => hall i (by omega) hi2) hk

/-! ## Claim theorems: retrying transport -/

/-- Claim C1 (code bug).  The spec requires that POST requests are never
retried by the transport, yet `RetryTransport.handle_request` tests only
`remaining_attempts` and the status code - `self.retryable_methods` is
assigned in `__init__` but never consulted - so a POST whose first
response is 429 is resent: with the default configuration it returns the
second response with one retry made, instead of the first 429 with none.
The second conjunct records that the retry behaviour is entirely
independent of the request method. -/
theorem post_request_is_retried :
    handle_request default_transport_cfg ⟨"POST"⟩
        (fun i => if i = 0 then 429 else 200) = (200, 1)
    ∧ ∀ (m1 m2 : String) (seq : Nat → Nat),
        handle_request default_transport_cfg ⟨m1⟩ seq
          = handle_request default_transport_cfg ⟨m2⟩ seq := by
  exact ⟨by decide, fun m1 m2 seq => rfl⟩

/-- Claim C8.  The retrying transport makes at most `max_attempts`
retries; when every response keeps carrying a retryable status it returns
the last failing response (the one of the final attempt) without raising;
and as soon as a response with a non-retryable status arrives, that
response is returned immediately.  Instantiated at a GET with responses
429, 429, 200 this yields the 200 response after exactly two retries
(see the witness). -/
theorem retry_gives_up_or_short_circuits :
    ∀ (cfg : RetryTransportCfg) (request : HttpRequest) (seq : Nat → Nat),
      (handle_request cfg request seq).2 ≤ cfg.max_attempts
      ∧ ((∀ i, i ≤ cfg.max_attempts → seq i ∈ cfg.retry_status_codes) →
          handle_request cfg request seq
            = (seq cfg.max_attempts, cfg.max_attempts))
      ∧ (∀ k, k ≤ cfg.max_attempts →
          (∀ i, i < k → seq i ∈ cfg.retry_status_codes) →
          seq k ∉ cfg.retry_status_codes →
          handle_request cfg request seq = (seq k, k)) := by
  intro cfg request seq
  refine ⟨?_, ?_, ?_⟩
  · have h := retry_loop_count_le cfg seq cfg.max_attempts 0 (seq 0)
    simpa [handle_request] using h
  · intro h
    have := retry_loop_all_retryable cfg seq cfg.max_attempts 0
      (fun i h1 h2 => h i (by omega))
    simpa [handle_request] using this
  · intro k hk hall hnot
    have := retry_loop_first_success cfg seq cfg.max_attempts 0 k
      (by omega) (by omega) (fun i _ h2 => hall i h2) hnot
    simpa [handle_request] using this

/-- Witness for C8: a GET whose responses are 429, 429, 200 in sequence
returns the 200 response after exactly two retries under the default
configuration. -/
theorem retry_gives_up_or_short_circuits_witness :
    handle_request default_transport_cfg ⟨"GET"⟩
        (fun i => if i < 2 then 429 else 200) = (200, 2) := by
  have h :=
    (retry_gives_up_or_short_circuits default_transport_cfg ⟨"GET"⟩
      (fun i => if i < 2 then 429 else 200)).2.2 2
      (by decide) (by decide) (by decide)
  simpa using h

/-- Claim C2, counterexample.  An integer `Retry-After` header is
returned by `_calculate_sleep` verbatim - `float(retry_after_header)`
with no cap - so a header of 100 seconds produces a 100-second wait even
though `max_backoff_wait` is 10. -/
theorem retry_after_seconds_uncapped :
    calculate_sleep default_transport_cfg 1 (.digits 100) 1 = 100
    ∧ default_transport_cfg.max_backoff_wait < 100 := by
  constructor
  · norm_num [calculate_sleep, default_transport_cfg]
  · norm_num [default_transport_cfg]

/-- Claim C2, amended.  When the `Retry-After` header is an HTTP date the
wait is capped at `max_backoff_wait`; an integer header is returned as
is, uncapped; when no header applies the wait equals
`min(max_backoff_wait, backoff_factor * 2^(attempt-1) + jitter)` with
`jitter = backoff * jitter_ratio * sign`; and the constructor admits
exactly the jitter ratios in [0, 0.5]. -/
theorem calculate_sleep_spec :
    ∀ (cfg : RetryTransportCfg) (a : Nat) (d : ℚ) (n : Nat) (s : ℚ),
      (init_rejects_jitter cfg.jitter_ratio = false →
        0 ≤ cfg.jitter_ratio ∧ cfg.jitter_ratio ≤ 1 / 2)
      ∧ calculate_sleep cfg a (.httpDate d) s ≤ cfg.max_backoff_wait
      ∧ (cfg.respect_retry_after_header = true →
          calculate_sleep cfg a (.digits n) s = (n : ℚ))
      ∧ calculate_sleep cfg a .absent s =
          min (cfg.backoff_factor * (2 : ℚ) ^ ((a : ℤ) - 1)
              + cfg.backoff_factor * (2 : ℚ) ^ ((a : ℤ) - 1)
                * cfg.jitter_ratio * s)
            cfg.max_backoff_wait := by
  intro cfg a d n s
  refine ⟨?_, ?_, ?_, ?_⟩
  · intro h
    simp only [init_rejects_jitter, Bool.or_eq_false_iff,
      decide_eq_false_iff_not, not_lt] at h
    exact ⟨h.1, h.2⟩
  · by_cases hr : cfg.respect_retry_after_header
    · by_cases hd : 0 < d
      · simp [calculate_sleep, hr, hd, min_le_right]
      · simp [calculate_sleep, hr, hd, min_le_right]
    · simp [calculate_sleep, hr, min_le_right]
  · intro hr
    simp [calculate_sleep, hr]
  · by_cases hr : cfg.respect_retry_after_header
    · simp [calculate_sleep, hr]
    · simp [calculate_sleep, hr]

/-- Witness for C2 (amended form) at the default configuration: the
jitter ratio 0.1 is accepted and lies in [0, 0.5], and with
`respect_retry_after_header` on, an integer header of 7 seconds sleeps
exactly 7 seconds. -/
theorem calculate_sleep_spec_witness :
    (0 ≤ default_transport_cfg.jitter_ratio
      ∧ default_transport_cfg.jitter_ratio ≤ 1 / 2)
    ∧ calculate_sleep default_transport_cfg 2 (.digits 7) 1 = 7 := by
  refine ⟨(calculate_sleep_spec default_transport_cfg 2 0 7 1).1
    (by norm_num [init_rejects_jitter, default_transport_cfg]), ?_⟩
  have h := (calculate_sleep_spec default_transport_cfg 2 0 7 1).2.2.1 rfl
  simpa using h

/-! ## Claim theorems: token expiry and the token cache -/

theorem dget_dset_self (m : List (String × α)) (k : String) (v : α) :
    dget (dset m k v) k = some v := by
  simp [dget, dset, List.lookup]

theorem dget_dremove_self (m : List (String × α)) (k : String) :
    dget (dremove m k) k = none := by
  induction m with
  | nil => rfl
  | cons p rest ih =>
    by_cases hp : p.1 = k
    · simpa [dremove, List.filter_cons, hp] using ih
    · have hkp : (k == p.1) = false :=
        beq_eq_false_iff_ne.mpr (fun h => hp h.symm)
      simpa [dremove, List.filter_cons, hp, dget, List.lookup, hkp] using ih

/-- Claim C4.  `token_expired(T, offset)` is true exactly when
`T.expires <= now + offset` and false exactly when
`T.expires > now + offset`; in particular the boundary case
`T.expires = now + offset` counts as expired (it satisfies the first
equivalence). -/
theorem token_expired_boundary :
    ∀ (now : Int) (T : AuthToken) (offset : Int),
      (token_expired now T offset = true ↔ T.expires ≤ now + offset)
      ∧ (token_expired now T offset = false ↔ now + offset < T.expires) := by
  intro now T offset
  constructor
  · simp only [token_expired, decide_eq_true_eq, ge_iff_le]
  · simp only [token_expired, decide_eq_false_iff_not, ge_iff_le, not_le]

/-- Witness for C4: a token expiring exactly at `now + offset` counts as
expired. -/
theorem token_expired_boundary_witness :
    token_expired 40 ⟨"tok", "Bearer", 100⟩ 60 = true :=
  (token_expired_boundary 40 ⟨"tok", "Bearer", 100⟩ 60).1.mpr (by decide)

/-- Claim C3.  Token-cache round trip: caching a non-expired token and
reading it back returns that token; once the expiry time plus the
60-second offset has elapsed, the read returns none, the in-memory entry
is purged, and with file-caching enabled the token file for that client
id is removed by the failed read. -/
theorem token_cache_round_trip :
    ∀ (write_to_file : Bool) (now : Int) (st : TokenCacheState)
      (client_id : String) (T : AuthToken),
      (token_expired now T = false →
        (get_cached_token write_to_file now
          (cache_token write_to_file st client_id T) client_id).1 = some T)
      ∧ (T.expires + 60 ≤ now →
          (get_cached_token write_to_file now
            (cache_token write_to_file st client_id T) client_id).1 = none
          ∧ dget (get_cached_token write_to_file now
              (cache_token write_to_file st client_id T) client_id).2.access_tokens
              client_id = none
          ∧ (write_to_file = true →
              dget (get_cached_token write_to_file now
                (cache_token write_to_file st client_id T) client_id).2.token_files
                client_id = none)) := by
  intro write_to_file now st client_id T
  constructor
  · intro hfresh
    simp [get_cached_token, cache_token, dget_dset_self, hfresh]
  · intro hold
    have hexp : token_expired now T = true := by
      simp only [token_expired, decide_eq_true_eq, ge_iff_le]
      omega
    cases write_to_file with
    | false =>
      refine ⟨?_, ?_, ?_⟩ <;>
        simp [get_cached_token, get_cached_token_file, cache_token,
          dget_dset_self, dget_dremove_self, hexp]
    | true =>
      have hfile :
          dget (cache_token true st client_id T).token_files client_id
            = some T := by
        simp [cache_token, dget_dset_self]
      refine ⟨?_, ?_, ?_⟩ <;>
        simp [get_cached_token, get_cached_token_file, cache_token,
          dget_dset_self, dget_dremove_self, hexp]

/-- Witness for C3 at a concrete state: the round trip holds for a fresh
token at `now = 0`, and the purge behaviour at `now = 2000` for a token
expiring at 1000, with file-caching on and an empty initial state. -/
theorem token_cache_round_trip_witness :
    (get_cached_token true 0
        (cache_token true ⟨[], []⟩ "cid" ⟨"tok", "Bearer", 1000⟩) "cid").1
      = some ⟨"tok", "Bearer", 1000⟩
    ∧ (get_cached_token true 2000
        (cache_token true ⟨[], []⟩ "cid" ⟨"tok", "Bearer", 1000⟩) "cid").1
      = none
    ∧ dget (get_cached_token true 2000
        (cache_token true ⟨[], []⟩ "cid" ⟨"tok", "Bearer", 1000⟩) "cid").2.token_files
        "cid" = none := by
  refine ⟨(token_cache_round_trip true 0 ⟨[], []⟩ "cid"
      ⟨"tok", "Bearer", 1000⟩).1 (by decide), ?_, ?_⟩
  · exact ((token_cache_round_trip true 2000 ⟨[], []⟩ "cid"
      ⟨"tok", "Bearer", 1000⟩).2 (by decide)).1
  · exact ((token_cache_round_trip true 2000 ⟨[], []⟩ "cid"
      ⟨"tok", "Bearer", 1000⟩).2 (by decide)).2.2 rfl

/-- Claim C5, counterexample.  A headers mapping that contains an
`Authorization` entry with the empty string as value defeats the
short-circuit - the guard is the truthiness test
`if not headers.get("Authorization")` - so the login step performs the
network exchange (one call), consults and updates the cache, and
overwrites the existing header value. -/
theorem login_empty_auth_value_not_short_circuited :
    login_sync false 0 AuthProviderName.BLK ⟨"tok", "Bearer", 1000⟩ ⟨[], []⟩
        ⟨"cid", none⟩ [("Authorization", "")]
      = .ok ⟨[("Authorization", "Bearer tok")],
          ⟨[("cid", ⟨"tok", "Bearer", 1000⟩)], []⟩, 1,
          some ⟨"tok", "Bearer", 1000⟩⟩ := by
  rfl

/-- Claim C5, amended.  For every headers mapping whose `Authorization`
entry has a non-empty value, `login_sync` (and its awaitable twin
`login`, which shares the embedded logic) performs no network call,
consults and modifies no cache state, and returns with the headers
mapping - the `Authorization` value included - unchanged. -/
theorem login_short_circuits_on_nonempty_auth :
    ∀ (write_to_file : Bool) (now : Int)
      (settings_provider : AuthProviderName) (provider_token : AuthToken)
      (st : TokenCacheState) (login : LoginInfo)
      (headers : List (String × String)) (v : String),
      dget headers "Authorization" = some v → v ≠ "" →
      login_sync write_to_file now settings_provider provider_token st login
        headers = .ok ⟨headers, st, 0, none⟩ := by
  intro write_to_file now settings_provider provider_token st login headers v
    hget hv
  simp [login_sync, hget, hv]

/-- Witness for C5 (amended form): a headers mapping already carrying
`Authorization: Bearer abc` passes through `login_sync` untouched, with
zero network calls and an unchanged cache. -/
theorem login_short_circuits_on_nonempty_auth_witness :
    login_sync true 0 AuthProviderName.KC ⟨"tok", "Bearer", 1000⟩ ⟨[], []⟩
        ⟨"cid", none⟩ [("Authorization", "Bearer abc")]
      = .ok ⟨[("Authorization", "Bearer abc")], ⟨[], []⟩, 0, none⟩ :=
  login_short_circuits_on_nonempty_auth true 0 AuthProviderName.KC
    ⟨"tok", "Bearer", 1000⟩ ⟨[], []⟩ ⟨"cid", none⟩
    [("Authorization", "Bearer abc")] "Bearer abc" (by decide) (by decide)

/-! ## Claim theorems: pagination -/

/-- Claim C6.  For a paginated source whose first page carries a
non-empty `results` list and a `next` URL, and whose second page carries
a non-empty `results` list and a null `next`, the lazy retrieval mode
yields exactly the two page lists in order and then stops, and the eager
retrieval mode returns only the first page list. -/
theorem pagination_two_pages {α : Type} :
    ∀ (fetch : String → Option PageParams → Page α) (url1 url2 : String)
      (r1 r2 : List α) (qp : PageParams) (fuel : Nat),
      (∀ p, fetch url1 p = ⟨r1, [], some url2, none, none, none⟩) →
      (∀ p, fetch url2 p = ⟨r2, [], none, none, none, none⟩) →
      r1 ≠ [] → r2 ≠ [] → 2 ≤ fuel →
      retrieve_iter_sync fetch url1 qp fuel = [some r1, some r2]
      ∧ retrieve_sync fetch url1 = r1 := by
  intro fetch url1 url2 r1 r2 qp fuel h1 h2 hr1 hr2 hfuel
  obtain ⟨a1, t1, rfl⟩ := List.exists_cons_of_ne_nil hr1
  obtain ⟨a2, t2, rfl⟩ := List.exists_cons_of_ne_nil hr2
  obtain ⟨f, rfl⟩ : ∃ f, fuel = f + 2 := ⟨fuel - 2, by omega⟩
  constructor
  · simp [retrieve_iter_sync, retrieve_iter_go, h1, h2, pager_list,
      pager_next]
  · simp [retrieve_sync, h1, pager_list]

/-- A two-page cursor-style source used to witness the pagination
claim. -/
def pages_fetch_example : String → Option PageParams → Page Nat :=
  fun url _ =>
    match url with
    | "page2" => ⟨[3, 4], [], none, none, none, none⟩
    | _ => ⟨[1, 2], [], some "page2", none, none, none⟩

/-- Witness for C6 on a concrete two-page source: lazy mode yields the
two page lists in order and stops; eager mode returns only the first
page list. -/
theorem pagination_two_pages_witness :
    retrieve_iter_sync pages_fetch_example "page1" [] 2
      = [some [1, 2], some [3, 4]]
    ∧ retrieve_sync pages_fetch_example "page1" = [1, 2] :=
  pagination_two_pages pages_fetch_example "page1" "page2" [1, 2] [3, 4] [] 2
    (fun _ => rfl) (fun _ => rfl) (by decide) (by decide) (by decide)

/-! ## Claim theorems: long-poll helpers -/

theorem wait_for_deployment_stuck (poll : Nat → String)
    (h : ∀ i, poll i ≠ "COMPLETED") :
    ∀ (d sleeps total_time max_time : Nat),
      max_time + 2 - total_time ≤ d →
      wait_for_deployment poll sleeps total_time max_time = .timeout := by
  intro d
  induction d with
  | zero =>
    intro s t m hd
    rw [wait_for_deployment]
    have hm : t > m := by omega
    simp [h s, hm]
  | succ n ih =>
    intro s t m hd
    rw [wait_for_deployment]
    by_cases hm : t > m
    · simp [h s, hm]
    · simp only [h s, hm, if_false]
      exact ih (s + 1) (t + 2) m (by omega)

theorem wait_for_org_transaction_stuck (poll : Nat → String)
    (h : ∀ i, poll i ≠ "COMPLETED" ∧ poll i ≠ "FAILED") :
    ∀ (d sleeps total_time max_time : Nat),
      max_time + 2 - total_time ≤ d →
      wait_for_org_transaction poll sleeps total_time max_time = .timeout := by
  intro d
  induction d with
  | zero =>
    intro s t m hd
    rw [wait_for_org_transaction]
    have hm : t > m := by omega
    simp [(h s).1, (h s).2, hm]
  | succ n ih =>
    intro s t m hd
    rw [wait_for_org_transaction]
    by_cases hm : t > m
    · simp [(h s).1, (h s).2, hm]
    · simp only [(h s).1, (h s).2, hm, if_false]
      exact ih (s + 1) (t + 2) m (by omega)

/-- Claim C7, counterexample.  `wait_for_deployment` never inspects the
FAILED state: polled against a resource that is permanently FAILED (with
`max_time = 0` so the run is short), it does not raise at the first poll
but sleeps, polls again and eventually raises the timeout error - not
the failure error - refuting the claim that every `wait_for_X` helper
raises immediately on FAILED. -/
theorem wait_for_deployment_ignores_failed :
    wait_for_deployment (fun _ => "FAILED") 0 0 0 = .timeout
    ∧ PollResult.timeout ≠ PollResult.failed "FAILED" := by
  constructor
  · exact wait_for_deployment_stuck (fun _ => "FAILED")
      (fun i => by show "FAILED" ≠ "COMPLETED"; decide) 2 0 0 0 (by omega)
  · decide

/-- Claim C7, amended.  `wait_for_org_transaction` raises immediately,
with no further polling, when the polled state is FAILED;
`wait_for_deployment` has no FAILED check and keeps polling a FAILED
resource until the timeout error; both helpers raise the timeout error
when the state is still PENDING past `max_time`; and both return the
resource after exactly two sleeps on the state sequence PENDING,
PENDING, COMPLETED. -/
theorem long_poll_behaviour :
    ∀ (poll : Nat → String) (sleeps total_time max_time : Nat),
      (poll sleeps = "FAILED" →
        wait_for_org_transaction poll sleeps total_time max_time
          = .failed "FAILED")
      ∧ ((∀ i, poll i = "FAILED") →
        wait_for_deployment poll sleeps total_time max_time = .timeout)
      ∧ ((∀ i, poll i = "PENDING") →
        wait_for_org_transaction poll sleeps total_time max_time = .timeout
        ∧ wait_for_deployment poll sleeps total_time max_time = .timeout)
      ∧ (poll 0 = "PENDING" → poll 1 = "PENDING" → poll 2 = "COMPLETED" →
        2 ≤ max_time →
        wait_for_org_transaction poll 0 0 max_time
          = .success "COMPLETED" 2
        ∧ wait_for_deployment poll 0 0 max_time
          = .success "COMPLETED" 2) := by
  intro poll sleeps total_time max_time
  refine ⟨?_, ?_, ?_, ?_⟩
  · intro hf
    rw [wait_for_org_transaction]
    simp [hf]
  · intro hf
    exact wait_for_deployment_stuck poll
      (fun i => by rw [hf i]; decide)
      (max_time + 2 - total_time) sleeps total_time max_time (le_refl _)
  · intro hp
    constructor
    · exact wait_for_org_transaction_stuck poll
        (fun i => by rw [hp i]; exact ⟨by decide, by decide⟩)
        (max_time + 2 - total_time) sleeps total_time max_time (le_refl _)
    · exact wait_for_deployment_stuck poll
        (fun i => by rw [hp i]; decide)
        (max_time + 2 - total_time) sleeps total_time max_time (le_refl _)
  · intro h0 h1 h2 hm
    have hm0 : ¬ (0 > max_time) := by omega
    have hm2 : ¬ (2 > max_time) := by omega
    constructor
    · rw [wait_for_org_transaction]
      simp only [h0, hm0]
      rw [wait_for_org_transaction]
      simp only [h1, hm2]
      rw [wait_for_org_transaction]
      simp [h2]
    · rw [wait_for_deployment]
      simp only [h0, hm0]
      rw [wait_for_deployment]
      simp only [h1, hm2]
      rw [wait_for_deployment]
      simp [h2]

/-- Witness for C7 (amended form) on concrete polled state sequences:
an immediately-FAILED transaction raises the failure error with no
second poll; a permanently FAILED deployment times out; and the sequence
PENDING, PENDING, COMPLETED returns after exactly two sleeps. -/
theorem long_poll_behaviour_witness :
    wait_for_org_transaction (fun _ => "FAILED") 0 0 40 = .failed "FAILED"
    ∧ wait_for_deployment (fun _ => "FAILED") 0 0 40 = .timeout
    ∧ wait_for_deployment
        (fun i => if i < 2 then "PENDING" else "COMPLETED") 0 0 960
        = .success "COMPLETED" 2 := by
  refine ⟨(long_poll_behaviour (fun _ => "FAILED") 0 0 40).1 rfl,
    (long_poll_behaviour (fun _ => "FAILED") 0 0 40).2.1 (fun _ => rfl),
    ((long_poll_behaviour (fun i => if i < 2 then "PENDING" else "COMPLETED")
        0 0 960).2.2.2 (by decide) (by decide) (by decide) (by decide)).2⟩

/-! ## Claim theorems: response decoding -/

theorem contains_substr_append_right (a b : String) :
    contains_substr (a ++ b) b = true := by
  simp only [contains_substr, decide_eq_true_eq]
  show b.data <:+: (a ++ b).data
  rw [String.data_append]
  exact (List.suffix_append a.data b.data).isInfix

/-- Claim C9, counterexample.  A response whose body is not valid JSON is
wrapped as `SimbaInvalidURLException(str(e))`: the message is the JSON
decoder diagnostic alone and does not include the raw response body,
refuting the claim that the raised message always includes the body. -/
theorem invalid_url_error_message_lacks_body :
    json_response_or_raise
        ⟨200, "the raw body", .error "Expecting value: line 1 column 1 (char 0)"⟩
      = .error (.invalidURL "Expecting value: line 1 column 1 (char 0)")
    ∧ contains_substr "Expecting value: line 1 column 1 (char 0)"
        "the raw body" = false := by
  constructor
  · rfl
  · decide

/-- Claim C9, amended.  Every failure raised by the response-decoding
step is one of the three typed errors of the taxonomy (the result type
of the embedding); the catch-all `LibSimbaException` branch - the one
that handles `raise_for_status` failures - always includes the raw
response body in its message, but the `SimbaInvalidURLException` branch
(JSON decode and connection-class errors) carries only the underlying
error message, without the body.  The second conjunct pins down the
bad-status path: a well-decoded response with status at least 400 raises
the catch-all error with the body embedded in the message. -/
theorem json_response_error_taxonomy :
    ∀ (r : HttpResponse) (e : SimbaError),
      json_response_or_raise r = .error e →
      ((∃ m, e = .invalidURL m)
        ∨ (∃ m, e = .generic m ∧ contains_substr m r.text = true))
      ∧ (∀ m, e = .generic m → contains_substr m r.text = true) := by
  intro r e h
  by_cases ht : r.text = ""
  · simp only [json_response_or_raise, if_pos ht] at h
    by_cases hs : 400 ≤ r.status_code
    · simp only [if_pos hs, Except.error.injEq] at h
      subst h
      refine ⟨Or.inr ⟨_, rfl, contains_substr_append_right _ _⟩, ?_⟩
      intro m hm
      cases hm
      exact contains_substr_append_right _ _
    · simp [hs] at h
  · cases hj : r.json_loads with
    | error msg =>
      simp only [json_response_or_raise, if_neg ht, hj,
        Except.error.injEq] at h
      subst h
      exact ⟨Or.inl ⟨msg, rfl⟩, fun m hm => by cases hm⟩
    | ok j =>
      simp only [json_response_or_raise, if_neg ht, hj] at h
      by_cases hs : 400 ≤ r.status_code
      · simp only [if_pos hs, Except.error.injEq] at h
        subst h
        refine ⟨Or.inr ⟨_, rfl, contains_substr_append_right _ _⟩, ?_⟩
        intro m hm
        cases hm
        exact contains_substr_append_right _ _
      · simp [hs] at h

/-- Witness for C9 (amended form): a response with a decodable body and
status 500 raises the catch-all error, whose message contains the raw
body. -/
theorem json_response_error_taxonomy_witness :
    ((∃ m, SimbaError.generic
          (status_error_text 500 ++ " :: " ++ "oops body")
        = .invalidURL m)
      ∨ (∃ m, SimbaError.generic
            (status_error_text 500 ++ " :: " ++ "oops body")
          = .generic m
          ∧ contains_substr m "oops body" = true)) := by
  have h := json_response_error_taxonomy
    ⟨500, "oops body", .ok (JsonValue.obj [])⟩
    (.generic (status_error_text 500 ++ " :: " ++ "oops body")) rfl
  exact h.1

/-! ## Claim theorems: parameter validator -/

/-- Claim C10.  `ParamChecking.validate` tests the presence of each
declared parameter with the truthiness of its supplied value, so any
declared parameter other than `_bundleHash` whose supplied value is
falsy - the integer 0, False and the empty string included - makes the
whole validation raise, exactly as if the parameter were missing, even
when the value matches the declared type (see the witness for the value
0 against a `uint256` parameter). -/
theorem validate_rejects_falsy :
    ∀ (fuel : Nat) (inputs : List (String × PyValue))
      (param_list : List (String × String)) (md : ContractMetadata)
      (k ty : String) (v : PyValue) (r : Except String Unit),
      validate fuel inputs param_list md = some r →
      (k, ty) ∈ param_list → k ≠ "_bundleHash" →
      pv_get inputs k = some v → truthy v = false →
      ∃ msg, r = Except.error msg := by
  intro fuel
  induction fuel with
  | zero =>
    intro inputs pl md k ty v r h
    simp [validate] at h
  | succ n ih =>
    intro inputs pl md k ty v r h hmem hk hget htr
    cases pl with
    | nil => simp at hmem
    | cons p rest =>
      obtain ⟨k', ty'⟩ := p
      simp only [validate] at h
      by_cases hb : k' = "_bundleHash"
      · rw [if_pos hb] at h
        rcases List.mem_cons.mp hmem with heq | hmem2
        · have hkk : k = k' := by cases heq; rfl
          exact (hk (hkk.trans hb)).elim
        · exact ih inputs rest md k ty v r h hmem2 hk hget htr
      · rw [if_neg hb] at h
        cases hg : pv_get inputs k' with
        | none =>
          simp only [hg] at h
          exact ⟨_, (Option.some.inj h).symm⟩
        | some v' =>
          simp only [hg] at h
          by_cases htv : truthy v' = false
          · rw [if_pos htv] at h
            exact ⟨_, (Option.some.inj h).symm⟩
          · rw [if_neg htv] at h
            cases hvp : validate_param n k' v' (get_type_info ty').1
                (get_type_info ty').2.1 (get_type_info ty').2.2 md with
            | none =>
              simp only [hvp] at h
              exact Option.noConfusion h
            | some res =>
              simp only [hvp] at h
              cases res with
              | error e => exact ⟨e, (Option.some.inj h).symm⟩
              | ok u =>
                cases u
                rcases List.mem_cons.mp hmem with heq | hmem2
                · have hkk : k = k' := by cases heq; rfl
                  rw [← hkk, hget] at hg
                  have hv : v = v' := Option.some.inj hg
                  rw [← hv] at htv
                  exact (htv htr).elim
                · exact ih inputs rest md k ty v r h hmem2 hk hget htr

/-- Witness for C10: the legitimate value 0 supplied for a declared
`uint256` parameter makes `validate` raise, exactly as if the parameter
were missing. -/
theorem validate_rejects_falsy_witness :
    ∃ msg, validate 5 [("x", PyValue.vint 0)] [("x", "uint256")] ⟨[]⟩
      = some (Except.error msg) := by
  have hval : validate 5 [("x", PyValue.vint 0)] [("x", "uint256")] ⟨[]⟩
      = some (Except.error "Unexpected keys") := rfl
  obtain ⟨msg, hmsg⟩ := validate_rejects_falsy 5 [("x", PyValue.vint 0)]
    [("x", "uint256")] ⟨[]⟩ "x" "uint256" (PyValue.vint 0)
    (Except.error "Unexpected keys") hval (by simp) (by decide) rfl rfl
  exact ⟨msg, by rw [hval, hmsg]⟩

end LibSimba
